import Mathlib

/-!
Shallow embedding of `src/winrtble/adapter.rs` (btleplug, winrtble adapter):
the `Central` implementation for Windows. The file models

* the data model: `BDAddr` (48-bit device address), `ScanFilter`,
  `CentralEvent`, peripheral records and the adapter's registry
  (`AdapterManager`, which lives in `common/adapter_manager.rs`, outside the
  sources provided, and is therefore modelled from the spec);
* `connected_peripherals` (adapter.rs lines 61-119);
* the scan callback registered by `start_scan` (adapter.rs lines 121-140);
* `stop_scan` (adapter.rs lines 142-146) and `peripheral` (lines 152-154).

Rust panics (`unwrap`, out-of-bounds indexing) are modelled explicitly:
functions that can panic return an `Option` (`none` = panic) or carry a
`RunOutcome.panicked` marker, so that the theorems can distinguish
"returns a typed error" from "panics".
-/

/-- Device hardware address. Modelled from the spec: `BDAddr` lives in
`api/mod.rs`, outside the provided sources; the spec describes it as "a
fixed-width hardware address (e.g. 48-bit MAC-style value)" that "must
round-trip exactly (address as a fixed-width integer)". We carry the
48-bit range as an invariant. -/
structure BDAddr where
  val : Nat
  isValid : val < 2 ^ 48

instance : DecidableEq BDAddr := fun a b =>
  if h : a.val = b.val then
    .isTrue (by cases a; cases b; cases h; rfl)
  else
    .isFalse (fun hab => h (congrArg BDAddr.val hab))

/-- Conversion of the platform's `u64` Bluetooth address into a `BDAddr`.
Modelled from the spec: the code calls `bluetooth_address.try_into()`
(`TryFrom<u64> for BDAddr`, defined in `api/mod.rs` outside the provided
sources); a `u64` that does not fit in the 48-bit address fails the
conversion. -/
def bdAddrTryFrom (n : Nat) : Option BDAddr :=
  if h : n < 2 ^ 48 then some ⟨n, h⟩ else none

/-- Scan filter: `pub struct ScanFilter { pub services: Vec<Uuid> }` from
`api/mod.rs`. UUIDs are 128-bit values; we model them as `Nat` (the code
round-trips them through `Uuid::from_u128(... .to_u128())`). -/
structure ScanFilter where
  services : List Nat

/-- The `CentralEvent` variants emitted by this adapter file
(`DeviceDiscovered` / `DeviceUpdated`, carrying the peripheral id, which
wraps the address). -/
inductive CentralEvent
  | DeviceDiscovered (id : BDAddr)
  | DeviceUpdated (id : BDAddr)
deriving DecidableEq

/-- Per-peripheral record. Modelled from the spec: `Peripheral` lives in
`winrtble/peripheral.rs`, outside the provided sources. `Peripheral::new`
stores the address; `update_properties(args)` merges an advertisement's
property patch into the record. The claims under proof never inspect the
merge policy, so the record keeps the address and the list of applied
patches (most recent first), each patch an opaque payload. -/
structure PeripheralState where
  address : BDAddr
  props : List Nat
deriving DecidableEq

/-- The adapter's device registry. Modelled from the spec:
`AdapterManager` (`common/adapter_manager.rs`) is outside the provided
sources; the spec describes it as a "mapping from device identity to
mutable peripheral state" with "exactly one entry per DeviceAddress".
We model it as an association list keyed by address; the scan path only
inserts addresses that are not yet present, which keeps keys unique. -/
def Registry : Type := List (BDAddr × PeripheralState)

instance : DecidableEq Registry := by
  unfold Registry; infer_instance

/-- The empty registry (`AdapterManager::default()`). -/
def Registry.empty : Registry := []

/-- Membership test used by the callback's `manager.peripheral_mut(&id)`
to decide between the update and the insert branch. Modelled from the
spec: registry lookup by address. -/
def Registry.containsAddr (r : Registry) (a : BDAddr) : Bool :=
  r.any (fun e => e.1 = a)

/-- Lookup (`AdapterManager::peripheral`). Modelled from the spec:
"`get(id) -> Option<Peripheral>`: fails silently (empty) if unknown". -/
def Registry.find (r : Registry) (a : BDAddr) : Option PeripheralState :=
  (r.lookup a)

/-- Insertion (`AdapterManager::add_peripheral`). Modelled from the spec:
the registry stores the peripheral under its address; all call sites in
adapter.rs insert only after a failed lookup (or for a fresh discovery),
so plain insertion keeps one entry per address. -/
def Registry.addPeripheral (r : Registry) (p : PeripheralState) : Registry :=
  (p.address, p) :: r

/-- In-place property update of the entry at the given address
(`entry.value_mut().update_properties(args)`). Modelled from the spec:
the patch is merged into the existing record; only the patched entry
changes. -/
def Registry.updateProps (r : Registry) (a : BDAddr) (patch : Nat) : Registry :=
  r.map (fun e => if e.1 = a then (e.1, ⟨e.2.address, patch :: e.2.props⟩) else e)

/-- Address list of the registry. -/
def Registry.keys (r : Registry) : List BDAddr := r.map Prod.fst

/-- Number of registered peripherals: the length of
`AdapterManager::peripherals()` (returned by the facade's
`peripherals()`). -/
def Registry.size (r : Registry) : Nat := r.length

/-- A raw hardware advertisement notification (the `args` the platform
passes to the scan callback). `bluetoothAddress = none` models
`args.BluetoothAddress()` returning `Err` (address absent); the patch is
the opaque property payload consumed by `update_properties`. -/
structure Advertisement where
  bluetoothAddress : Option Nat
  patch : Nat

/-- An advertisement whose address is present and well-formed. -/
def Advertisement.ofValid (a : BDAddr) (patch : Nat) : Advertisement :=
  ⟨some a.val, patch⟩

/-- The scan callback registered by `start_scan` (adapter.rs lines
126-138), run once per notification. The code unwraps
`args.BluetoothAddress()` and the `try_into()` conversion, so a missing
or out-of-range address is a panic (`none`). Otherwise it updates the
existing entry and emits `DeviceUpdated`, or inserts a new peripheral
(created with the address, then `update_properties(args)`) and emits
`DeviceDiscovered`. Returns the new registry and the emitted events. -/
def scanCallback (reg : Registry) (args : Advertisement) :
    Option (Registry × List CentralEvent) :=
  match args.bluetoothAddress with
  | none => none
  | some n =>
    match bdAddrTryFrom n with
    | none => none
    | some address =>
      if reg.containsAddr address then
        some (reg.updateProps address args.patch, [CentralEvent.DeviceUpdated address])
      else
        some (reg.addPeripheral ⟨address, [args.patch]⟩,
              [CentralEvent.DeviceDiscovered address])

/-- The pure branch of the callback, once the address has been
extracted. -/
def scanStep (reg : Registry) (a : BDAddr) (patch : Nat) :
    Registry × List CentralEvent :=
  if reg.containsAddr a then
    (reg.updateProps a patch, [CentralEvent.DeviceUpdated a])
  else
    (reg.addPeripheral ⟨a, [patch]⟩, [CentralEvent.DeviceDiscovered a])

/-- A scan session processing a sequence of notifications: the platform
invokes the callback once per notification, threading the registry; the
emitted events are concatenated in order. A panic in the callback aborts
the run (`none`). -/
def processAll (reg : Registry) : List Advertisement →
    Option (Registry × List CentralEvent)
  | [] => some (reg, [])
  | args :: rest =>
    match scanCallback reg args with
    | none => none
    | some res =>
      match processAll res.1 rest with
      | none => none
      | some res2 => some (res2.1, res.2 ++ res2.2)

/-- Processing of a sequence of well-formed notifications, given as
(address, patch) pairs. -/
def processValid (reg : Registry) : List (BDAddr × Nat) →
    Registry × List CentralEvent
  | [] => (reg, [])
  | (a, p) :: rest =>
    let s := scanStep reg a p
    let r := processValid s.1 rest
    (r.1, s.2 ++ r.2)

/-- The error values this file can return: `Error::DeviceNotFound`,
`Error::NotSupported(msg)` and `Error::Other(msg)` from the crate's
`Error` enum. -/
inductive RustError
  | DeviceNotFound
  | NotSupported (msg : String)
  | Other (msg : String)
deriving DecidableEq

/-- How a call finished: it panicked (`unwrap` failure / out-of-bounds
index), returned `Err(e)`, or returned `Ok`. -/
inductive RunOutcome
  | panicked
  | error (e : RustError)
  | ok
deriving DecidableEq

/-- The observable behaviour of one `connected_peripherals` call: how it
finished, the resulting registry, the events emitted, and how many
candidates of the platform's device list were processed before the call
finished (the call performs no capability query on candidates beyond
this count). -/
structure CPRun where
  outcome : RunOutcome
  registry : Registry
  events : List CentralEvent
  processed : Nat
deriving DecidableEq

/-- A resolved BLE device, as the per-candidate capability queries see
it: `gattServices` is the result of
`GetGattServicesAsync().get().Services()` (the code unwraps each step,
so an `Err` anywhere is a panic), each service contributing its 128-bit
UUID; `bluetoothAddress` is the result of `BluetoothAddress()` (`none`
models `Err`, which the code also unwraps). -/
structure BleDevice where
  gattServices : Except String (List Nat)
  bluetoothAddress : Option Nat

/-- A candidate of the platform's device enumeration. `fromIdOp` models
the two-step resolution `BluetoothLEDevice::FromIdAsync(&device_id)`
followed by `.get()`: the outer `Except` is the `FromIdAsync` result,
the inner one the `.get()` result; the code handles both errors with
`continue`. -/
structure Candidate where
  fromIdOp : Except String (Except String BleDevice)

/-- Result of the platform device enumeration
`DeviceInformation::FindAllAsyncAqsFilter(&GetDeviceSelector().unwrap()).unwrap().get()`:
either one of the two unwrapped setup calls failed (panic), or `.get()`
returned `Err(e)` (which the code turns into `Error::Other`), or a list
of candidates. -/
inductive EnumResult
  | panicOnSetup
  | getError (e : String)
  | ok (devices : List Candidate)

/-- The candidate loop of `connected_peripherals` (adapter.rs lines
78-117), with the first filter UUID `sf` already extracted. Per
candidate: a failed `FromIdAsync` or `.get()` skips the candidate
(`continue`); a failed GATT services query panics (the code unwraps it);
if some offered service equals `sf`, the code unwraps the device's
address and its `try_into()` conversion, registers a fresh peripheral
(`Peripheral::new` — the property update is commented out in the
source), emits `DeviceDiscovered` and returns `Ok(())` without touching
the remaining candidates; otherwise the loop moves on. An exhausted loop
returns `Ok(())`. -/
def cpLoop (sf : Nat) (reg : Registry) : List Candidate → CPRun
  | [] => ⟨RunOutcome.ok, reg, [], 0⟩
  | c :: rest =>
    match c.fromIdOp with
    | Except.error _ =>
      let r := cpLoop sf reg rest
      ⟨r.outcome, r.registry, r.events, r.processed + 1⟩
    | Except.ok (Except.error _) =>
      let r := cpLoop sf reg rest
      ⟨r.outcome, r.registry, r.events, r.processed + 1⟩
    | Except.ok (Except.ok dev) =>
      match dev.gattServices with
      | Except.error _ => ⟨RunOutcome.panicked, reg, [], 1⟩
      | Except.ok svcs =>
        if svcs.contains sf then
          match dev.bluetoothAddress with
          | none => ⟨RunOutcome.panicked, reg, [], 1⟩
          | some n =>
            match bdAddrTryFrom n with
            | none => ⟨RunOutcome.panicked, reg, [], 1⟩
            | some address =>
              ⟨RunOutcome.ok,
               reg.addPeripheral ⟨address, []⟩,
               [CentralEvent.DeviceDiscovered address],
               1⟩
        else
          let r := cpLoop sf reg rest
          ⟨r.outcome, r.registry, r.events, r.processed + 1⟩

/-- `connected_peripherals` (adapter.rs lines 61-119). The code first
evaluates `filter.services[0]` — an unguarded index, so an empty service
list is a panic before anything else happens — then runs the platform
enumeration (an `Err` from `.get()` becomes `Error::Other`), then the
candidate loop. -/
def connected_peripherals (filter : ScanFilter) (enum : EnumResult)
    (reg : Registry) : CPRun :=
  match filter.services with
  | [] => ⟨RunOutcome.panicked, reg, [], 0⟩
  | sf :: _ =>
    match enum with
    | EnumResult.panicOnSetup => ⟨RunOutcome.panicked, reg, [], 0⟩
    | EnumResult.getError e => ⟨RunOutcome.error (RustError.Other e), reg, [], 0⟩
    | EnumResult.ok devices => cpLoop sf reg devices

/-- Scan-session states, from the spec's `ScanSessionState`. -/
inductive ScanSessionState
  | Idle
  | Scanning
deriving DecidableEq

/-- The watcher's `stop`. Modelled from the spec: `BLEWatcher`
(`winrtble/ble/watcher.rs`) is outside the provided sources; the spec
says stopping unregisters the platform callback and transitions to Idle,
and a platform-level stop failure is returned as an error with the state
unchanged ("stop failure ⇒ remain Scanning"). The platform's outcome is
an explicit input. -/
def watcherStop (platform : Except String Unit) (_st : ScanSessionState) :
    Except String ScanSessionState :=
  match platform with
  | Except.error e => Except.error e
  | Except.ok _ => Except.ok ScanSessionState.Idle

/-- `stop_scan` (adapter.rs lines 142-146): `watcher.stop().unwrap()`,
then `Ok(())`. An `Err` from the watcher is unwrapped, i.e. a panic; the
session state is whatever the watcher left (unchanged on failure). -/
def stop_scan (platform : Except String Unit) (st : ScanSessionState) :
    RunOutcome × ScanSessionState :=
  match watcherStop platform st with
  | Except.error _ => (RunOutcome.panicked, st)
  | Except.ok st2 => (RunOutcome.ok, st2)

/-- `peripheral` (adapter.rs lines 152-154):
`self.manager.peripheral(id).ok_or(Error::DeviceNotFound)`. The lookup
itself is `Registry.find` (modelled from the spec); the function is pure
in the registry — it returns no modified registry because it mutates
nothing. -/
def peripheral (reg : Registry) (id : BDAddr) :
    Except RustError PeripheralState :=
  match reg.find id with
  | some p => Except.ok p
  | none => Except.error RustError.DeviceNotFound

/-- A candidate that the loop passes over without registering anything:
its resolution fails at `FromIdAsync` or at `.get()` (the code skips it
with `continue`), or it resolves and its GATT query succeeds but none of
its offered services equals the extracted filter UUID `sf`. -/
def candidateNoMatch (sf : Nat) (c : Candidate) : Prop :=
  (∃ e, c.fromIdOp = Except.error e) ∨
  (∃ e, c.fromIdOp = Except.ok (Except.error e)) ∨
  (∃ dev svcs, c.fromIdOp = Except.ok (Except.ok dev) ∧
    dev.gattServices = Except.ok svcs ∧ svcs.contains sf = false)

/-- A sample 48-bit address, used by concrete witnesses. -/
def addrOne : BDAddr := ⟨1, by norm_num⟩

theorem containsAddr_iff_mem_keys (r : Registry) (a : BDAddr) :
    r.containsAddr a = true ↔ a ∈ r.keys := by
  simp [Registry.containsAddr, Registry.keys, List.any_eq_true, List.mem_map]

theorem keys_updateProps (r : Registry) (a : BDAddr) (p : Nat) :
    (r.updateProps a p).keys = r.keys := by
  unfold Registry.updateProps Registry.keys
  rw [List.map_map]
  apply List.map_congr_left
  intro e _
  by_cases h : e.1 = a <;> simp [h]

theorem keys_addPeripheral (r : Registry) (p : PeripheralState) :
    (r.addPeripheral p).keys = p.address :: r.keys := rfl

theorem scanStep_update (reg : Registry) (a : BDAddr) (p : Nat)
    (h : reg.containsAddr a = true) :
    scanStep reg a p = (reg.updateProps a p, [CentralEvent.DeviceUpdated a]) := by
  simp [scanStep, h]

theorem scanStep_insert (reg : Registry) (a : BDAddr) (p : Nat)
    (h : reg.containsAddr a = false) :
    scanStep reg a p =
      (reg.addPeripheral ⟨a, [p]⟩, [CentralEvent.DeviceDiscovered a]) := by
  simp [scanStep, h]

theorem bdAddrTryFrom_val (a : BDAddr) : bdAddrTryFrom a.val = some a := by
  obtain ⟨v, hv⟩ := a
  simp only [bdAddrTryFrom]
  rw [dif_pos hv]

theorem scanCallback_ofValid (reg : Registry) (a : BDAddr) (p : Nat) :
    scanCallback reg (Advertisement.ofValid a p) = some (scanStep reg a p) := by
  simp only [scanCallback, Advertisement.ofValid, bdAddrTryFrom_val, scanStep]
  by_cases h : reg.containsAddr a <;> simp [h]

theorem processAll_ofValid (l : List (BDAddr × Nat)) (reg : Registry) :
    processAll reg (l.map fun x => Advertisement.ofValid x.1 x.2) =
      some (processValid reg l) := by
  induction l generalizing reg with
  | nil => rfl
  | cons x rest ih =>
    obtain ⟨a, p⟩ := x
    simp only [List.map_cons, processAll, scanCallback_ofValid, ih, processValid]

theorem mem_keys_processValid (l : List (BDAddr × Nat)) (reg : Registry)
    (b : BDAddr) :
    b ∈ (processValid reg l).1.keys ↔ b ∈ reg.keys ∨ b ∈ l.map Prod.fst := by
  induction l generalizing reg with
  | nil => simp [processValid]
  | cons x rest ih =>
    obtain ⟨a, p⟩ := x
    simp only [processValid, List.map_cons, List.mem_cons]
    rw [ih]
    by_cases h : reg.containsAddr a = true
    · have ha := (containsAddr_iff_mem_keys reg a).1 h
      rw [scanStep_update reg a p h, keys_updateProps]
      constructor
      · rintro (hb | hb)
        · exact Or.inl hb
        · exact Or.inr (Or.inr hb)
      · rintro (hb | rfl | hb)
        · exact Or.inl hb
        · exact Or.inl ha
        · exact Or.inr hb
    · rw [scanStep_insert reg a p (by simpa using h), keys_addPeripheral]
      simp only [List.mem_cons]
      tauto

theorem nodup_keys_processValid (l : List (BDAddr × Nat)) (reg : Registry)
    (h : reg.keys.Nodup) : (processValid reg l).1.keys.Nodup := by
  induction l generalizing reg with
  | nil => simpa [processValid]
  | cons x rest ih =>
    obtain ⟨a, p⟩ := x
    simp only [processValid]
    apply ih
    by_cases hc : reg.containsAddr a = true
    · rw [scanStep_update reg a p hc, keys_updateProps]; exact h
    · rw [scanStep_insert reg a p (by simpa using hc), keys_addPeripheral]
      refine List.nodup_cons.2 ⟨?_, h⟩
      intro hmem
      exact hc ((containsAddr_iff_mem_keys reg a).2 hmem)

theorem count_discovered_processValid (l : List (BDAddr × Nat)) (reg : Registry)
    (b : BDAddr) :
    (processValid reg l).2.count (CentralEvent.DeviceDiscovered b) =
      if b ∈ reg.keys then 0
      else if b ∈ l.map Prod.fst then 1 else 0 := by
  induction l generalizing reg with
  | nil => simp [processValid]
  | cons x rest ih =>
    obtain ⟨a, p⟩ := x
    simp only [processValid, List.count_append, List.map_cons, List.mem_cons]
    by_cases hc : reg.containsAddr a = true
    · have ha := (containsAddr_iff_mem_keys reg a).1 hc
      rw [scanStep_update reg a p hc, ih, keys_updateProps]
      by_cases hb : b ∈ reg.keys
      · simp [hb, List.count_cons]
      · have hba : ¬ b = a := fun h => hb (h ▸ ha)
        simp only [or_iff_right hba]
        simp [hb, List.count_cons]
    · have hcf : reg.containsAddr a = false := by simpa using hc
      have ha : a ∉ reg.keys := fun h => hc ((containsAddr_iff_mem_keys reg a).2 h)
      rw [scanStep_insert reg a p hcf, ih, keys_addPeripheral]
      by_cases hba : b = a
      · subst hba
        simp [ha, List.count_cons]
      · simp only [or_iff_right hba]
        simp [hba, List.count_cons]

theorem size_processValid_empty (l : List (BDAddr × Nat)) :
    (processValid Registry.empty l).1.size = (l.map Prod.fst).toFinset.card := by
  have hnd : (processValid Registry.empty l).1.keys.Nodup :=
    nodup_keys_processValid l Registry.empty (by simp [Registry.empty, Registry.keys])
  have hfin : (processValid Registry.empty l).1.keys.toFinset =
      (l.map Prod.fst).toFinset := by
    ext b
    rw [List.mem_toFinset, List.mem_toFinset, mem_keys_processValid]
    simp [Registry.empty, Registry.keys]
  calc (processValid Registry.empty l).1.size
      = (processValid Registry.empty l).1.keys.length := by
        simp [Registry.size, Registry.keys]
    _ = (processValid Registry.empty l).1.keys.toFinset.card :=
        (List.toFinset_card_of_nodup hnd).symm
    _ = (l.map Prod.fst).toFinset.card := by rw [hfin]

theorem cpLoop_skip (sf : Nat) (reg : Registry) (c : Candidate)
    (rest : List Candidate)
    (h : (∃ e, c.fromIdOp = Except.error e) ∨
         (∃ e, c.fromIdOp = Except.ok (Except.error e))) :
    cpLoop sf reg (c :: rest) =
      ⟨(cpLoop sf reg rest).outcome, (cpLoop sf reg rest).registry,
       (cpLoop sf reg rest).events, (cpLoop sf reg rest).processed + 1⟩ := by
  obtain ⟨e, he⟩ | ⟨e, he⟩ := h <;> simp [cpLoop, he]

theorem cpLoop_nonmatch (sf : Nat) (reg : Registry) (c : Candidate)
    (rest : List Candidate) (dev : BleDevice) (svcs : List Nat)
    (h1 : c.fromIdOp = Except.ok (Except.ok dev))
    (h2 : dev.gattServices = Except.ok svcs)
    (h3 : svcs.contains sf = false) :
    cpLoop sf reg (c :: rest) =
      ⟨(cpLoop sf reg rest).outcome, (cpLoop sf reg rest).registry,
       (cpLoop sf reg rest).events, (cpLoop sf reg rest).processed + 1⟩ := by
  simp only [cpLoop, h1, h2]
  rw [if_neg (by rw [h3]; exact Bool.false_ne_true)]

theorem cpLoop_found (sf : Nat) (reg : Registry) (c : Candidate)
    (rest : List Candidate) (dev : BleDevice) (svcs : List Nat) (n : Nat)
    (hn : n < 2 ^ 48)
    (h1 : c.fromIdOp = Except.ok (Except.ok dev))
    (h2 : dev.gattServices = Except.ok svcs)
    (h3 : svcs.contains sf = true)
    (h4 : dev.bluetoothAddress = some n) :
    cpLoop sf reg (c :: rest) =
      ⟨RunOutcome.ok, reg.addPeripheral ⟨⟨n, hn⟩, []⟩,
       [CentralEvent.DeviceDiscovered ⟨n, hn⟩], 1⟩ := by
  simp only [cpLoop, h1, h2, h3, h4, bdAddrTryFrom]
  rw [dif_pos hn]
  simp

theorem cpLoop_exhaust (sf : Nat) (l : List Candidate) (reg : Registry)
    (h : ∀ c ∈ l, candidateNoMatch sf c) :
    cpLoop sf reg l = ⟨RunOutcome.ok, reg, [], l.length⟩ := by
  induction l with
  | nil => rfl
  | cons c rest ih =>
    have hr := ih (fun d hd => h d (List.mem_cons_of_mem c hd))
    obtain ⟨e, he⟩ | ⟨e, he⟩ | ⟨dev, svcs, h1, h2, h3⟩ := h c (List.mem_cons_self c rest)
    · rw [cpLoop_skip sf reg c rest (Or.inl ⟨e, he⟩), hr]
      simp
    · rw [cpLoop_skip sf reg c rest (Or.inr ⟨e, he⟩), hr]
      simp
    · rw [cpLoop_nonmatch sf reg c rest dev svcs h1 h2 h3, hr]
      simp

theorem cpLoop_append_nomatch (sf : Nat) (pre : List Candidate)
    (tail : List Candidate) (reg : Registry)
    (h : ∀ c ∈ pre, candidateNoMatch sf c) :
    cpLoop sf reg (pre ++ tail) =
      ⟨(cpLoop sf reg tail).outcome, (cpLoop sf reg tail).registry,
       (cpLoop sf reg tail).events,
       (cpLoop sf reg tail).processed + pre.length⟩ := by
  induction pre with
  | nil => simp
  | cons c ps ih =>
    have hr := ih (fun d hd => h d (List.mem_cons_of_mem c hd))
    have step : cpLoop sf reg (c :: (ps ++ tail)) =
        ⟨(cpLoop sf reg (ps ++ tail)).outcome, (cpLoop sf reg (ps ++ tail)).registry,
         (cpLoop sf reg (ps ++ tail)).events,
         (cpLoop sf reg (ps ++ tail)).processed + 1⟩ := by
      obtain ⟨e, he⟩ | ⟨e, he⟩ | ⟨dev, svcs, h1, h2, h3⟩ := h c (List.mem_cons_self c ps)
      · exact cpLoop_skip sf reg c (ps ++ tail) (Or.inl ⟨e, he⟩)
      · exact cpLoop_skip sf reg c (ps ++ tail) (Or.inr ⟨e, he⟩)
      · exact cpLoop_nonmatch sf reg c (ps ++ tail) dev svcs h1 h2 h3
    rw [List.cons_append, step, hr]
    simp [List.length_cons]
    omega

/-- C1: for every hardware advertisement notification processed by the
scan callback registered in `start_scan`, if the notification's address
is not yet present in the registry, a new peripheral for that address is
added and a `DeviceDiscovered` event is emitted for it; if the address
is already present, the existing entry's properties are updated and a
`DeviceUpdated` event is emitted for it. -/
theorem scan_callback_upsert_semantics (reg : Registry) (a : BDAddr) (p : Nat) :
    (reg.containsAddr a = false →
      scanCallback reg (Advertisement.ofValid a p) =
        some (reg.addPeripheral ⟨a, [p]⟩, [CentralEvent.DeviceDiscovered a]) ∧
      (reg.addPeripheral ⟨a, [p]⟩).containsAddr a = true) ∧
    (reg.containsAddr a = true →
      scanCallback reg (Advertisement.ofValid a p) =
        some (reg.updateProps a p, [CentralEvent.DeviceUpdated a])) := by
  constructor
  · intro h
    refine ⟨?_, ?_⟩
    · rw [scanCallback_ofValid, scanStep_insert reg a p h]
    · simp [Registry.addPeripheral, Registry.containsAddr]
  · intro h
    rw [scanCallback_ofValid, scanStep_update reg a p h]

/-- Witness for C1: a fresh address on the empty registry is inserted
and announced with `DeviceDiscovered`. -/
theorem scan_callback_upsert_semantics_witness :
    scanCallback Registry.empty (Advertisement.ofValid addrOne 7) =
      some (Registry.empty.addPeripheral ⟨addrOne, [7]⟩,
            [CentralEvent.DeviceDiscovered addrOne]) :=
  ((scan_callback_upsert_semantics Registry.empty addrOne 7).1 (by decide)).1

/-- C2: over any sequence of well-formed scan notifications starting
from the empty registry, the session never panics, `DeviceDiscovered` is
emitted at most once per address, and the final registry holds exactly
one entry per distinct notified address (property-only updates for seen
addresses never change the count, and no entry is ever removed). -/
theorem scan_discovery_idempotent_and_registry_size
    (l : List (BDAddr × Nat)) :
    processAll Registry.empty (l.map fun x => Advertisement.ofValid x.1 x.2) =
      some (processValid Registry.empty l) ∧
    (∀ b : BDAddr,
      (processValid Registry.empty l).2.count
        (CentralEvent.DeviceDiscovered b) ≤ 1) ∧
    (processValid Registry.empty l).1.size = (l.map Prod.fst).toFinset.card := by
  refine ⟨processAll_ofValid l Registry.empty, ?_, size_processValid_empty l⟩
  intro b
  rw [count_discovered_processValid l Registry.empty b]
  by_cases h1 : b ∈ Registry.empty.keys
  · simp [h1]
  · by_cases h2 : b ∈ l.map Prod.fst <;> simp [h1, h2]

/-- Counterexample to C5: a notification whose address is absent makes
the scan callback panic (the `unwrap` on `args.BluetoothAddress()`
fails, modelled by `none`); it is not dropped with the registry
unchanged and no event, which would be `some (Registry.empty, [])`. -/
theorem scan_callback_malformed_cex :
    scanCallback Registry.empty ⟨none, 0⟩ = none ∧
    scanCallback Registry.empty ⟨none, 0⟩ ≠ some (Registry.empty, []) := by
  constructor
  · rfl
  · intro h
    cases h

/-- C5 amended: the scan callback unwraps the notification's address, so
a notification whose address is absent or unparseable makes the callback
panic (rather than being logged and dropped); in either case no event is
emitted and the registry is not modified, since the panic happens before
any registry access. -/
theorem scan_callback_malformed_panics (reg : Registry) (args : Advertisement)
    (h : args.bluetoothAddress = none ∨
         ∃ n, args.bluetoothAddress = some n ∧ 2 ^ 48 ≤ n) :
    scanCallback reg args = none := by
  obtain hn | ⟨n, hn, hge⟩ := h
  · simp [scanCallback, hn]
  · simp only [scanCallback, hn, bdAddrTryFrom]
    rw [dif_neg (Nat.not_lt.mpr hge)]

/-- Witness for C5 (amended): the address-absent notification panics the
callback on the empty registry. -/
theorem scan_callback_malformed_panics_witness :
    scanCallback Registry.empty ⟨none, 3⟩ = none :=
  scan_callback_malformed_panics Registry.empty ⟨none, 3⟩ (Or.inl rfl)

/-- C9: `peripheral(id)` returns the registry's peripheral for `id` when
one exists and returns `DeviceNotFound` exactly when no peripheral with
that id is in the registry; being a pure lookup over the registry value,
it mutates nothing. -/
theorem peripheral_lookup_spec (reg : Registry) (id : BDAddr) :
    (∀ p, reg.find id = some p → peripheral reg id = Except.ok p) ∧
    (peripheral reg id = Except.error RustError.DeviceNotFound ↔
      reg.find id = none) := by
  constructor
  · intro p hp
    simp [peripheral, hp]
  · cases hf : reg.find id <;> simp [peripheral, hf]

/-- Witness for C9: looking up a registered address returns its entry;
looking it up on the empty registry returns `DeviceNotFound`. -/
theorem peripheral_lookup_spec_witness :
    peripheral (Registry.empty.addPeripheral ⟨addrOne, [5]⟩) addrOne =
      Except.ok ⟨addrOne, [5]⟩ ∧
    peripheral Registry.empty addrOne =
      Except.error RustError.DeviceNotFound :=
  ⟨(peripheral_lookup_spec (Registry.empty.addPeripheral ⟨addrOne, [5]⟩)
      addrOne).1 ⟨addrOne, [5]⟩ (by decide),
   (peripheral_lookup_spec Registry.empty addrOne).2.mpr (by decide)⟩

/-- Counterexample to C3: a candidate list whose only candidate resolves
and offers only service 5 never matches the filter {9}, yet
`connected_peripherals` returns `Ok` (RunOutcome.ok) after exhausting
the list — it does not return a NoMatchingDevice error. -/
theorem connected_peripherals_nomatch_cex :
    connected_peripherals ⟨[9]⟩
        (EnumResult.ok [⟨Except.ok (Except.ok ⟨Except.ok [5], some 4⟩)⟩])
        Registry.empty =
      ⟨RunOutcome.ok, Registry.empty, [], 1⟩ := by decide

/-- C3 amended: when every candidate is skipped at resolution or offers
no service equal to the first filter UUID, `connected_peripherals`
exhausts the candidate list and returns success (`Ok(())`), registering
nothing and emitting nothing; there is no NoMatchingDevice error in this
code path. -/
theorem connected_peripherals_exhausted_returns_ok (u : Nat)
    (restF : List Nat) (l : List Candidate) (reg : Registry)
    (h : ∀ c ∈ l, candidateNoMatch u c) :
    connected_peripherals ⟨u :: restF⟩ (EnumResult.ok l) reg =
      ⟨RunOutcome.ok, reg, [], l.length⟩ := by
  simp only [connected_peripherals]
  exact cpLoop_exhaust u l reg h

/-- Witness for C3 (amended): one resolving, non-matching candidate is
exhausted and the call returns success. -/
theorem connected_peripherals_exhausted_returns_ok_witness :
    connected_peripherals ⟨[9]⟩
        (EnumResult.ok [⟨Except.ok (Except.ok ⟨Except.ok [5, 6], some 4⟩)⟩])
        Registry.empty =
      ⟨RunOutcome.ok, Registry.empty, [], 1⟩ :=
  connected_peripherals_exhausted_returns_ok 9 []
    [⟨Except.ok (Except.ok ⟨Except.ok [5, 6], some 4⟩)⟩] Registry.empty
    (by
      intro c hc
      simp only [List.mem_singleton] at hc
      subst hc
      exact Or.inr (Or.inr ⟨_, _, rfl, rfl, by decide⟩))

/-- Counterexample to C4: with an empty service set the call panics (the
unguarded `filter.services[0]` indexing fails) before even touching the
platform's device list; it does not treat the empty filter as "match
all" and does not complete. -/
theorem connected_peripherals_empty_filter_cex :
    connected_peripherals ⟨[]⟩
        (EnumResult.ok [⟨Except.ok (Except.ok ⟨Except.ok [5], some 4⟩)⟩])
        Registry.empty =
      ⟨RunOutcome.panicked, Registry.empty, [], 0⟩ := by decide

/-- C4 amended: `connected_peripherals` reads `filter.services[0]`
unconditionally, so every call whose filter carries an empty set of
service UUIDs panics before the enumeration, whatever the platform
returns; the registry is left unchanged and no event is emitted. -/
theorem connected_peripherals_empty_filter_panics (enum : EnumResult)
    (reg : Registry) :
    connected_peripherals ⟨[]⟩ enum reg =
      ⟨RunOutcome.panicked, reg, [], 0⟩ := rfl

/-- Counterexample to C6: the second candidate satisfies the filter (it
offers service 42, the filter's UUID), yet the operation neither
registers it nor returns success: the first candidate's GATT services
query fails, the code unwraps that failure, and the whole call panics
after processing only the first candidate. -/
theorem connected_peripherals_early_exit_cex :
    ([42].contains 42 = true) ∧
    connected_peripherals ⟨[42]⟩
        (EnumResult.ok
          [⟨Except.ok (Except.ok ⟨Except.error "gatt query failed", none⟩)⟩,
           ⟨Except.ok (Except.ok ⟨Except.ok [42], some 2⟩)⟩])
        Registry.empty =
      ⟨RunOutcome.panicked, Registry.empty, [], 1⟩ := by decide

/-- C6 amended: provided every candidate before the first match is
skipped at resolution or resolves with a successful GATT query offering
no matching service (a failing GATT query before the match would panic
instead), and the matching candidate's address is present and 48-bit,
`connected_peripherals` registers that first matching candidate, emits
`DeviceDiscovered` for it, returns success, and processes no candidate
after the match (the result is independent of the remaining candidates
and exactly `pre.length + 1` candidates are processed). -/
theorem connected_peripherals_early_exit (u : Nat) (restF : List Nat)
    (pre post : List Candidate) (m : Candidate) (dev : BleDevice)
    (svcs : List Nat) (n : Nat) (reg : Registry) (hn : n < 2 ^ 48)
    (hpre : ∀ c ∈ pre, candidateNoMatch u c)
    (h1 : m.fromIdOp = Except.ok (Except.ok dev))
    (h2 : dev.gattServices = Except.ok svcs)
    (h3 : svcs.contains u = true)
    (h4 : dev.bluetoothAddress = some n) :
    connected_peripherals ⟨u :: restF⟩ (EnumResult.ok (pre ++ m :: post)) reg =
      ⟨RunOutcome.ok, reg.addPeripheral ⟨⟨n, hn⟩, []⟩,
       [CentralEvent.DeviceDiscovered ⟨n, hn⟩], pre.length + 1⟩ := by
  simp only [connected_peripherals]
  rw [cpLoop_append_nomatch u pre (m :: post) reg hpre,
      cpLoop_found u reg m post dev svcs n hn h1 h2 h3 h4]
  simp [Nat.add_comm]

/-- Witness for C6 (amended): the first candidate fails to resolve and
is skipped, the second matches service 33 and is registered and
announced, the third is never processed (2 candidates processed). -/
theorem connected_peripherals_early_exit_witness :
    connected_peripherals ⟨[33]⟩
        (EnumResult.ok
          [⟨Except.error "resolve failed"⟩,
           ⟨Except.ok (Except.ok ⟨Except.ok [33], some 8⟩)⟩,
           ⟨Except.ok (Except.ok ⟨Except.error "never queried", none⟩)⟩])
        Registry.empty =
      ⟨RunOutcome.ok,
       Registry.empty.addPeripheral ⟨⟨8, by norm_num⟩, []⟩,
       [CentralEvent.DeviceDiscovered ⟨8, by norm_num⟩], 2⟩ :=
  connected_peripherals_early_exit 33 [] [⟨Except.error "resolve failed"⟩]
    [⟨Except.ok (Except.ok ⟨Except.error "never queried", none⟩)⟩]
    ⟨Except.ok (Except.ok ⟨Except.ok [33], some 8⟩)⟩ ⟨Except.ok [33], some 8⟩
    [33] 8 Registry.empty (by norm_num)
    (by
      intro c hc
      simp only [List.mem_singleton] at hc
      subst hc
      exact Or.inl ⟨_, rfl⟩)
    rfl rfl (by decide) rfl

/-- Counterexample to C7: the first candidate's GATT services query (one
of the per-candidate capability queries) fails; instead of skipping only
that candidate and continuing, the whole enumeration panics — the second
candidate (which would match) is never processed. -/
theorem connected_peripherals_gatt_failure_cex :
    connected_peripherals ⟨[7]⟩
        (EnumResult.ok
          [⟨Except.ok (Except.ok ⟨Except.error "services unavailable", some 1⟩)⟩,
           ⟨Except.ok (Except.ok ⟨Except.ok [7], some 3⟩)⟩])
        Registry.empty =
      ⟨RunOutcome.panicked, Registry.empty, [], 1⟩ := by decide

/-- C7 amended: only the device-resolution half of the claim holds — a
failure of `FromIdAsync` or of its `get()` causes just that candidate to
be skipped: the loop continues over the remaining candidates with the
same outcome, registry and events, one more candidate processed. (A GATT
services query failure, by contrast, panics the whole enumeration.) -/
theorem connected_peripherals_resolve_failure_skips (sf : Nat)
    (reg : Registry) (c : Candidate) (rest : List Candidate)
    (hskip : (∃ e, c.fromIdOp = Except.error e) ∨
             (∃ e, c.fromIdOp = Except.ok (Except.error e))) :
    (cpLoop sf reg (c :: rest)).outcome = (cpLoop sf reg rest).outcome ∧
    (cpLoop sf reg (c :: rest)).registry = (cpLoop sf reg rest).registry ∧
    (cpLoop sf reg (c :: rest)).events = (cpLoop sf reg rest).events ∧
    (cpLoop sf reg (c :: rest)).processed =
      (cpLoop sf reg rest).processed + 1 := by
  rw [cpLoop_skip sf reg c rest hskip]
  exact ⟨rfl, rfl, rfl, rfl⟩

/-- Witness for C7 (amended): a candidate whose `FromIdAsync` fails is
skipped and the loop result matches the loop on the remaining (empty)
list. -/
theorem connected_peripherals_resolve_failure_skips_witness :
    (cpLoop 7 Registry.empty [⟨Except.error "device vanished"⟩]).outcome =
      (cpLoop 7 Registry.empty []).outcome ∧
    (cpLoop 7 Registry.empty [⟨Except.error "device vanished"⟩]).registry =
      (cpLoop 7 Registry.empty []).registry ∧
    (cpLoop 7 Registry.empty [⟨Except.error "device vanished"⟩]).events =
      (cpLoop 7 Registry.empty []).events ∧
    (cpLoop 7 Registry.empty [⟨Except.error "device vanished"⟩]).processed =
      (cpLoop 7 Registry.empty []).processed + 1 :=
  connected_peripherals_resolve_failure_skips 7 Registry.empty
    ⟨Except.error "device vanished"⟩ [] (Or.inl ⟨_, rfl⟩)

/-- Counterexample to C8: when the platform fails to stop discovery,
`stop_scan` panics on the unwrapped failure (`watcher.stop().unwrap()`)
— it does not surface a typed error result; the session state stays
Scanning. -/
theorem stop_scan_failure_cex :
    stop_scan (Except.error "radio busy") ScanSessionState.Scanning =
      (RunOutcome.panicked, ScanSessionState.Scanning) := rfl

/-- C8 amended: when the platform fails to stop discovery, `stop_scan`
panics instead of returning a typed error to the caller; the session
state is left unchanged (it remains Scanning if it was Scanning). -/
theorem stop_scan_failure_panics_state_unchanged (e : String)
    (st : ScanSessionState) :
    stop_scan (Except.error e) st = (RunOutcome.panicked, st) := rfl

/-- C10: only the first UUID of the filter is compared against the
candidates' offered services — a resolving candidate whose successful
GATT query offers the filter's second UUID `v` but not its first UUID
`u` is never treated as a match: the run continues exactly as if the
candidate were absent (same outcome, registry and events — so it is
never registered and never announced with `DeviceDiscovered` — with one
more candidate processed). -/
theorem connected_peripherals_first_uuid_only (u v : Nat)
    (restF : List Nat) (reg : Registry) (c : Candidate)
    (tail : List Candidate) (dev : BleDevice) (svcs : List Nat)
    (h1 : c.fromIdOp = Except.ok (Except.ok dev))
    (h2 : dev.gattServices = Except.ok svcs)
    (hv : svcs.contains v = true) (hu : svcs.contains u = false) :
    connected_peripherals ⟨u :: v :: restF⟩ (EnumResult.ok (c :: tail)) reg =
      ⟨(cpLoop u reg tail).outcome, (cpLoop u reg tail).registry,
       (cpLoop u reg tail).events, (cpLoop u reg tail).processed + 1⟩ := by
  simp only [connected_peripherals]
  exact cpLoop_nonmatch u reg c tail dev svcs h1 h2 hu

/-- Witness for C10: with filter [1, 2], a candidate offering only
service 2 is passed over and the run ends as on the empty list. -/
theorem connected_peripherals_first_uuid_only_witness :
    connected_peripherals ⟨[1, 2]⟩
        (EnumResult.ok [⟨Except.ok (Except.ok ⟨Except.ok [2], some 6⟩)⟩])
        Registry.empty =
      ⟨(cpLoop 1 Registry.empty []).outcome,
       (cpLoop 1 Registry.empty []).registry,
       (cpLoop 1 Registry.empty []).events,
       (cpLoop 1 Registry.empty []).processed + 1⟩ :=
  connected_peripherals_first_uuid_only 1 2 [] Registry.empty
    ⟨Except.ok (Except.ok ⟨Except.ok [2], some 6⟩)⟩ []
    ⟨Except.ok [2], some 6⟩ [2] rfl rfl (by decide) (by decide)
